import Mathlib

/-!
Shallow embedding of the ytdlp-downloader application (src/main.py and
src/db_functions.py) together with theorems settling the frozen claims
about its specification.

Conventions of the embedding:
  * Python strings are Lean `String`s; regular-expression fragments of
    `parse_formats` are translated into deterministic scanners (the char
    classes `\d`, `\w`, `\s` of the source patterns are pairwise disjoint
    at every juncture, so greedy maximal-munch scanning is exactly the
    behaviour of the Python regexes on every input).
  * Python dicts coming from the download engine are the `Snapshot`
    structure whose `Option` fields model key presence; `dict.get`
    becomes `Option.getD` and direct subscription becomes a `match`
    whose missing branch is a raised `KeyError` (`Except.error`).
  * Python numbers in the progress arithmetic are modelled by `ℚ`; every
    quantity the claims touch (byte counts divided by powers of two,
    percentages of small integers) is exactly representable as a binary
    float, so the rational model agrees with the float semantics there.
  * The sqlite table is a list of rows plus an autoincrement counter;
    `SELECT *` returns rows in storage (insertion) order.
-/

namespace Ytdlp

/-! ## Character classes of the source regular expressions -/

/-- `\d` of the Python patterns (ASCII decimal digit). -/
def isDigitC (c : Char) : Bool := c.isDigit

/-- `\w` of the Python patterns (letter, digit or underscore). -/
def isWordC (c : Char) : Bool := c.isAlpha || c.isDigit || c = '_'

/-- `\s` of the Python patterns and the whitespace set of `str.strip`. -/
def isSpaceC (c : Char) : Bool :=
  c = ' ' || c = '\t' || c = '\n' || c = '\r' || c = '\x0b' || c = '\x0c'

/-- Numeric value of a string of ASCII digits, as Python `int` reads it. -/
def digitsToNat (cs : List Char) : Nat :=
  cs.foldl (fun n c => n * 10 + (c.toNat - '0'.toNat)) 0

/-- Does `p` occur as the leading segment of `cs`? -/
def startsWithList : List Char → List Char → Bool
  | [], _ => true
  | _ :: _, [] => false
  | p :: ps, c :: cs => p = c && startsWithList ps cs

/-- Python `str.strip()` with the ASCII whitespace set. -/
def pyStrip (s : String) : String :=
  String.mk (((s.data.dropWhile isSpaceC).reverse.dropWhile isSpaceC).reverse)

/-- Python `str.split(sep)` for a single-character separator: auxiliary
    accumulator pass. -/
def pySplitCharAux (sep : Char) : List Char → List Char → List (List Char)
  | [], acc => [acc.reverse]
  | c :: cs, acc =>
      if c = sep then acc.reverse :: pySplitCharAux sep cs []
      else pySplitCharAux sep cs (c :: acc)

/-- Python `str.split(sep)` for a single-character separator. -/
def pySplitChar (sep : Char) (s : String) : List String :=
  (pySplitCharAux sep s.data []).map String.mk

/-- Python `str.splitlines()`: auxiliary accumulator pass handling the
    terminators `\n`, `\r\n` and `\r`, with no trailing empty line. -/
def pySplitlinesAux : List Char → List Char → List (List Char)
  | [], acc => if acc.isEmpty then [] else [acc.reverse]
  | '\n' :: rest, acc => acc.reverse :: pySplitlinesAux rest []
  | '\r' :: '\n' :: rest, acc => acc.reverse :: pySplitlinesAux rest []
  | '\r' :: rest, acc => acc.reverse :: pySplitlinesAux rest []
  | c :: rest, acc => pySplitlinesAux rest (c :: acc)

/-- Python `str.splitlines()`. -/
def pySplitlines (s : String) : List (List Char) := pySplitlinesAux s.data []

/-- Python `str.replace(pat, rep)` on character lists: leftmost,
    non-overlapping, replacing every occurrence (used with a non-empty
    pattern only). Structural recursion on a fuel argument that starts at
    the list length; every step consumes at least one character, so the
    fuel never runs out before the list does. -/
def replaceListFuel (pat rep : List Char) : Nat → List Char → List Char
  | 0, cs => cs
  | _ + 1, [] => []
  | fuel + 1, c :: rest =>
      if startsWithList pat (c :: rest) then
        rep ++ replaceListFuel pat rep fuel (rest.drop (pat.length - 1))
      else
        c :: replaceListFuel pat rep fuel rest

/-- Python `str.replace(pat, rep)`. -/
def pyReplace (s pat rep : String) : String :=
  String.mk (replaceListFuel pat.data rep.data s.data.length s.data)

/-! ## `normalize_filename` (src/main.py lines 111-124) -/

/-- `os.path.splitext` (posixpath): the extension is the part of the
    basename from its last dot on, provided that dot is preceded inside
    the basename by at least one non-dot character (leading dots of the
    basename never start an extension). -/
def pySplitext (p : List Char) : List Char × List Char :=
  match (p.reverse.takeWhile (fun c => c != '/')).dropWhile (fun c => c != '.') with
  | '.' :: revRootBase =>
      if revRootBase.any (fun c => c != '.') then
        ((p.reverse.dropWhile (fun c => c != '/')).reverse ++ revRootBase.reverse,
         '.' :: ((p.reverse.takeWhile (fun c => c != '/')).takeWhile (fun c => c != '.')).reverse)
      else (p, [])
  | _ => (p, [])

/-- Python `base.rsplit(".", 1)[0]`: everything before the last dot, or
    the whole string when no dot occurs. -/
def rsplitDotFirst (cs : List Char) : List Char :=
  match cs.reverse.dropWhile (fun c => c != '.') with
  | '.' :: revPre => revPre.reverse
  | _ => cs

/-- `normalize_filename`: strip the extension with `os.path.splitext`,
    then strip one further trailing dot-segment with `rsplit(".", 1)`. -/
def normalize_filename (filename : String) : String :=
  String.mk (rsplitDotFirst (pySplitext filename.data).1)

/-! ## `parse_formats` (src/main.py lines 127-170) -/

/-- The threshold classification of the nested `resolution_to_label`
    helper, applied to the parsed height. -/
def heightToLabel (height : Nat) : String :=
  if height ≥ 2160 then "4K"
  else if height ≥ 1440 then "2K"
  else if height ≥ 1080 then "1080p"
  else if height ≥ 720 then "720p"
  else if height ≥ 480 then "480p"
  else "Low Resolution"

/-- `resolution_to_label`: split the `WIDTHxHEIGHT` string on `x`,
    read the numbers, and classify by the height thresholds. -/
def resolution_to_label (res : String) : String :=
  heightToLabel (digitsToNat ((pySplitChar 'x' res).getD 1 "").data)

/-- The video line pattern of `parse_formats`:
    `^(\d+)\s+\w+\s+(\d+x\d+)` as a deterministic scanner, returning the
    captured format code and resolution string. -/
def matchVideo (line : List Char) : Option (String × String) :=
  let code := line.takeWhile isDigitC
  let r1 := line.dropWhile isDigitC
  if code.isEmpty then none else
  if (r1.takeWhile isSpaceC).isEmpty then none else
  let r2 := r1.dropWhile isSpaceC
  if (r2.takeWhile isWordC).isEmpty then none else
  let r3 := r2.dropWhile isWordC
  if (r3.takeWhile isSpaceC).isEmpty then none else
  let r4 := r3.dropWhile isSpaceC
  let d1 := r4.takeWhile isDigitC
  if d1.isEmpty then none else
  match r4.dropWhile isDigitC with
  | 'x' :: r6 =>
      let d2 := r6.takeWhile isDigitC
      if d2.isEmpty then none
      else some (String.mk code, String.mk (d1 ++ 'x' :: d2))
  | _ => none

/-- The audio line pattern of `parse_formats`:
    `^(\d+)\s+\w+\s+audio only` as a deterministic scanner, returning the
    captured format code. -/
def matchAudio (line : List Char) : Option String :=
  let code := line.takeWhile isDigitC
  let r1 := line.dropWhile isDigitC
  if code.isEmpty then none else
  if (r1.takeWhile isSpaceC).isEmpty then none else
  let r2 := r1.dropWhile isSpaceC
  if (r2.takeWhile isWordC).isEmpty then none else
  let r3 := r2.dropWhile isWordC
  if (r3.takeWhile isSpaceC).isEmpty then none else
  let r4 := r3.dropWhile isSpaceC
  if startsWithList "audio only".data r4 then some (String.mk code) else none

/-- The catalog built by `parse_formats`: one optional audio entry and a
    list of video entries in discovery order. -/
structure Formats where
  audio : Option String
  video : List String
deriving DecidableEq, Repr

/-- `parse_formats`: scan each line against the video pattern (append
    `"code: label"` on a match) and the audio pattern (the last matching
    line wins). -/
def parse_formats (output : String) : Formats :=
  (pySplitlines output).foldl
    (fun fmts line =>
      let fmts :=
        match matchVideo line with
        | some (code, res) =>
            { fmts with video := fmts.video ++ [code ++ ": " ++ resolution_to_label res] }
        | none => fmts
      match matchAudio line with
      | some code => { fmts with audio := some (code ++ ": Audio Only") }
      | none => fmts)
    { audio := none, video := [] }

/-! ## `populate_combo_box` (src/main.py lines 398-416) -/

/-- The sort key of `populate_combo_box`: `x.split(":")[1]`, the text
    after the first colon (which keeps its leading space). -/
def comboKey (x : String) : String := (pySplitChar ':' x).getD 1 ""

/-- Lexicographic comparison of character lists by code point — exactly
    Python's `<` on strings. -/
def ltCharList : List Char → List Char → Bool
  | [], [] => false
  | [], _ :: _ => true
  | _ :: _, [] => false
  | a :: as, b :: bs => if a < b then true else if b < a then false else ltCharList as bs

/-- Python `<` on strings (lexicographic by code point). -/
def pyStrLt (a b : String) : Bool := ltCharList a.data b.data

/-- Stable descending insertion (by string comparison of the key):
    an element passes over strictly greater keys and lands before the
    first key less than or equal to its own, so equal keys keep their
    original relative order. -/
def insertDesc (key : String → String) (x : String) : List String → List String
  | [] => [x]
  | y :: ys => if pyStrLt (key x) (key y) then y :: insertDesc key x ys else x :: y :: ys

/-- The `sorted(formats["video"], key=lambda x: x.split(":")[1],
    reverse=True)` expression of `populate_combo_box`: a stable sort,
    descending by the lexical string comparison of the key. -/
def sortedVideos (vids : List String) : List String :=
  vids.foldr (insertDesc comboKey) []

/-- The list of items `populate_combo_box` inserts into the combo box:
    the placeholder, then the audio entry when present, then the video
    entries in sorted order. -/
def populate_combo_box (fmts : Formats) : List String :=
  "Select Format" ::
    (match fmts.audio with
     | some a => [a]
     | none => []) ++ sortedVideos fmts.video

/-- The resolution rank the specification assigns to each quality label
    (4K > 2K > 1080p > 720p > 480p > Low Resolution). -/
def labelRank (label : String) : Nat :=
  if label = "4K" then 5
  else if label = "2K" then 4
  else if label = "1080p" then 3
  else if label = "720p" then 2
  else if label = "480p" then 1
  else 0

/-! ## Rational helpers for the float arithmetic of the progress code -/

/-- Floor of a rational (`den` is always positive, so Euclidean division
    of `num` by `den` is the floor). -/
def ratFloor (q : ℚ) : Int := Int.ediv q.num (q.den : Int)

/-- Python `int(...)` on a number: truncation toward zero. -/
def pyInt (q : ℚ) : Int := if q < 0 then -(ratFloor (-q)) else ratFloor q

/-- Round half to even to an integer, as float-to-decimal formatting
    does. -/
def rhe (q : ℚ) : Int :=
  let f := ratFloor q
  if q - (f : ℚ) < 1/2 then f
  else if 1/2 < q - (f : ℚ) then f + 1
  else if f % 2 = 0 then f else f + 1

/-- Two decimal digits with a leading zero. -/
def pad2 (n : Nat) : String := if n < 10 then "0" ++ Nat.repr n else Nat.repr n

/-- Python `f"{q:.2f}"` for the non-negative magnitudes the application
    formats: round to hundredths (half to even) and print with two
    decimal places. -/
def fmt2 (q : ℚ) : String :=
  let n := rhe (q * 100)
  let sign := if n < 0 then "-" else ""
  let a := n.natAbs
  sign ++ Nat.repr (a / 100) ++ "." ++ pad2 (a % 100)

/-- `str(timedelta(seconds=q)).split(".")[0]`: whole seconds rendered as
    `H:MM:SS`, with a day count prepended when it is non-zero. -/
def formatTimedelta (q : ℚ) : String :=
  let total := ratFloor q
  let days := Int.ediv total 86400
  let rem := Int.emod total 86400
  let hms :=
    Int.repr (Int.ediv rem 3600) ++ ":" ++
      pad2 (Int.emod (Int.ediv rem 60) 60).toNat ++ ":" ++
      pad2 (Int.emod rem 60).toNat
  if days = 0 then hms
  else if days = 1 || days = -1 then Int.repr days ++ " day, " ++ hms
  else Int.repr days ++ " days, " ++ hms

/-! ## Progress snapshots and the main-window state -/

/-- A progress dict delivered by the engine; each `Option` field models
    the presence of the corresponding key. -/
structure Snapshot where
  status : Option String
  filename : Option String
  downloaded_bytes : Option Nat
  total_bytes : Option Nat
  total_bytes_estimate : Option Nat
  speed : Option ℚ
  eta : Option ℚ
deriving DecidableEq, Repr

/-- The empty dict (Python falsy). -/
def emptySnapshot : Snapshot :=
  { status := none, filename := none, downloaded_bytes := none,
    total_bytes := none, total_bytes_estimate := none, speed := none, eta := none }

/-- Python truthiness of the dict: false exactly when no key is
    present. -/
def Snapshot.isEmpty (d : Snapshot) : Bool :=
  d.status.isNone && d.filename.isNone && d.downloaded_bytes.isNone &&
  d.total_bytes.isNone && d.total_bytes_estimate.isNone && d.speed.isNone && d.eta.isNone

/-- One row of the results table (and one persisted record's visible
    columns): filename, size, status, time left, transfer rate. -/
structure Row where
  filename : String
  file_size : String
  status : String
  time_left : String
  transfer_rate : String
deriving DecidableEq, Repr

/-- The mutable state of `MainWindow` that the claims touch: the widget
    texts, the latest snapshot, the table rows and the cached row
    index. -/
structure UIState where
  lineEdit : String
  comboItems : List String
  selectionType : Option String
  statusAttr : Option String
  etaAttr : Option ℚ
  transferRateAttr : Option ℚ
  downloadedBytesAttr : Option ℚ
  fileSizeAttr : Option ℚ
  download_data : Snapshot
  fileNameLabel : String
  downloadedLabel : String
  fileSizeLabel : String
  progressBar : Int
  tableRows : List Row
  current_row_position : Option Nat
deriving DecidableEq, Repr

/-- A fresh window state (empty input, no snapshot, empty table). -/
def st0 : UIState :=
  { lineEdit := "", comboItems := [], selectionType := none,
    statusAttr := none, etaAttr := none, transferRateAttr := none,
    downloadedBytesAttr := none, fileSizeAttr := none,
    download_data := emptySnapshot,
    fileNameLabel := "File Name: None", downloadedLabel := "Downloaded: 0 MB",
    fileSizeLabel := "File Size: 0 MB", progressBar := 0,
    tableRows := [], current_row_position := none }

/-! ## `progress_hook` (src/main.py lines 483-508) -/

/-- `progress_hook`: store the snapshot wholesale, refresh the filename
    label when a filename is present, then branch on `d["status"]` — a
    direct subscription, so a snapshot without the key raises
    (`Except.error`); every other field is read with `.get` and a zero
    default. -/
def progress_hook (st : UIState) (d : Snapshot) : Except String UIState :=
  let st := { st with download_data := d }
  let st :=
    match d.filename with
    | some fn => { st with fileNameLabel := "Downloading: " ++ normalize_filename fn }
    | none => st
  match d.status with
  | none => Except.error "KeyError: status"
  | some s =>
      if s = "downloading" then
        Except.ok { st with
          fileSizeAttr := some ((d.total_bytes.getD (d.total_bytes_estimate.getD 0) : Nat) : ℚ),
          downloadedBytesAttr := some ((d.downloaded_bytes.getD 0 : Nat) : ℚ),
          transferRateAttr := some (d.speed.getD 0),
          etaAttr := some (d.eta.getD 0),
          statusAttr := some "Downloading" }
      else if s = "finished" then
        Except.ok { st with
          fileSizeAttr := some ((d.total_bytes.getD (d.total_bytes_estimate.getD 0) : Nat) : ℚ),
          downloadedBytesAttr := some ((d.total_bytes.getD (d.total_bytes_estimate.getD 0) : Nat) : ℚ),
          transferRateAttr := some 0,
          etaAttr := some 0,
          statusAttr := some "Finished" }
      else Except.ok st

/-- Did the call return normally? -/
def isOkE (e : Except String UIState) : Bool :=
  match e with
  | Except.ok _ => true
  | Except.error _ => false

/-! ## `update_progress` / `update_table` (src/main.py lines 510-598) -/

/-- The shared denominator expression
    `d.get("total_bytes", d.get("total_bytes_estimate", 1))` of
    `update_progress` and `update_table`: note the default is `1`, not
    `0`, when both keys are absent. -/
def effectiveTotal (d : Snapshot) : ℚ :=
  match d.total_bytes with
  | some t => (t : ℚ)
  | none =>
      match d.total_bytes_estimate with
      | some t => (t : ℚ)
      | none => 1

/-- The shared percent expression
    `downloaded_bytes / total_bytes * 100 if total_bytes else 0` of
    `update_progress` and `update_table`. -/
def computePercent (d : Snapshot) : ℚ :=
  if effectiveTotal d ≠ 0 then ((d.downloaded_bytes.getD 0 : Nat) : ℚ) / effectiveTotal d * 100
  else 0

/-- `update_table`: recompute the display strings from the latest
    snapshot, locate the row whose normalized filename matches the
    normalized label filename (linear scan), update it in place, or
    append a new row and remember its index. -/
def update_table (st : UIState) : UIState :=
  if st.download_data.isEmpty then st
  else
    let d := st.download_data
    let file_size_str := fmt2 (effectiveTotal d / (1024 * 1024)) ++ " MB"
    let transfer_rate_str := fmt2 (d.speed.getD 0 / (1024 * 1024)) ++ " MB/s"
    let download_status :=
      if computePercent d < 100 then fmt2 (computePercent d) ++ "%" else "Completed"
    let time_left :=
      match d.eta with
      | some e => formatTimedelta e
      | none => "N/A"
    let filename := pyStrip (pyReplace st.fileNameLabel "Downloading: " "")
    let base := normalize_filename filename
    let newRow : Row :=
      { filename := filename, file_size := file_size_str, status := download_status,
        time_left := time_left, transfer_rate := transfer_rate_str }
    match st.tableRows.findIdx? (fun r => normalize_filename r.filename == base) with
    | some i => { st with tableRows := st.tableRows.set i newRow }
    | none =>
        { st with tableRows := st.tableRows ++ [newRow],
                  current_row_position := some st.tableRows.length }

/-- `update_progress` (the periodic 0.5 s tick): reset the labels when no
    snapshot is held; otherwise refresh the labels and the clamped
    progress bar, and run the table-update step only while
    `download_data.get("status")` is not `"finished"`. -/
def update_progress (st : UIState) : UIState :=
  if st.download_data.isEmpty then
    { st with progressBar := 0, downloadedLabel := "Downloaded: 0 MB",
              fileSizeLabel := "File Size: 0 MB" }
  else
    let d := st.download_data
    let st1 := { st with
      downloadedLabel := fmt2 (((d.downloaded_bytes.getD 0 : Nat) : ℚ) / (1024 * 1024)) ++ " MB",
      fileSizeLabel := fmt2 (effectiveTotal d / (1024 * 1024)) ++ " MB",
      progressBar := min (max (pyInt (computePercent d)) 0) 100 }
    if st1.download_data.status ≠ some "finished" then update_table st1 else st1

/-- `n` consecutive periodic ticks. -/
def ticks : Nat → UIState → UIState
  | 0, st => st
  | n + 1, st => ticks n (update_progress st)

/-! ## `clear_input` and `on_download_finished` (src/main.py 300-318, 621-695) -/

/-- `clear_input`: blank the input widgets, reset the labels and the
    progress bar, and drop the held snapshot (the table rows are kept). -/
def clear_input (st : UIState) : UIState :=
  { st with lineEdit := "", comboItems := [], progressBar := 0,
            downloadedLabel := "Downloaded: 0 MB", fileSizeLabel := "File Size: 0 MB",
            fileNameLabel := "File Name: None", download_data := emptySnapshot }

/-- The size string of `on_download_finished`: GB when the size in GiB is
    at least one, MB otherwise, both with two decimals. -/
def format_completed_size (bytes : Nat) : String :=
  if 1 ≤ (bytes : ℚ) / (1024 * 1024 * 1024) then
    fmt2 ((bytes : ℚ) / (1024 * 1024 * 1024)) ++ " GB"
  else
    fmt2 ((bytes : ℚ) / (1024 * 1024)) ++ " MB"

/-- The artifact name `on_download_finished` settles on: the merged
    filename handed over by the worker, or (when absent) the filename
    label with its prefix text removed and stripped. -/
def resolvedName (st : UIState) (merged : Option String) : String :=
  match merged with
  | some f => f
  | none => pyStrip (pyReplace st.fileNameLabel "Downloading: " "")

/-- `on_download_finished`, with the filesystem modelled as a map from
    names to sizes: when the artifact exists, overwrite the cached row
    with the final values, emit exactly one persisted record (the second
    component), and reset the input state; when it does not exist, write
    nothing and still reset. -/
def on_download_finished (fs : String → Option Nat) (st : UIState) (merged : Option String) :
    UIState × List Row :=
  let filename := resolvedName st merged
  match fs filename with
  | some bytes =>
      let file_size_str := format_completed_size bytes
      let finalRow : Row :=
        { filename := filename, file_size := file_size_str, status := "Completed",
          time_left := "N/A", transfer_rate := "0.00 MB/S" }
      let rows :=
        match st.current_row_position with
        | some i => st.tableRows.set i finalRow
        | none => st.tableRows
      (clear_input { st with tableRows := rows }, [finalRow])
  | none => (clear_input st, [])

/-! ## The persistence gateway (src/db_functions.py) -/

/-- One persisted row of a download table, with its autoincrement id. -/
structure DBRow where
  id : Nat
  filename : String
  file_size : String
  status : String
  time_left : String
  transfer_rate : String
deriving DecidableEq, Repr

/-- A download table: rows in storage order plus the next autoincrement
    id. -/
structure DBTable where
  rows : List DBRow
  nextId : Nat
deriving DecidableEq, Repr

/-- A freshly created (empty) table; sqlite autoincrement starts at 1. -/
def emptyTable : DBTable := { rows := [], nextId := 1 }

/-- `add_file_to_database_table`: append one row. -/
def add_file_to_database_table
    (filename size status time_left transfer_rate : String) (t : DBTable) : DBTable :=
  { rows := t.rows ++
      [{ id := t.nextId, filename := filename, file_size := size, status := status,
         time_left := time_left, transfer_rate := transfer_rate }],
    nextId := t.nextId + 1 }

/-- `fetch_entries_from_database`: `SELECT *`, all rows in storage
    order. -/
def fetch_entries_from_database (t : DBTable) : List DBRow := t.rows

/-- `delete_files_from_database`: for each filename in the list, delete
    every row whose filename equals it. -/
def delete_files_from_database (filenames : List String) (t : DBTable) : DBTable :=
  filenames.foldl
    (fun acc fn => { acc with rows := acc.rows.filter (fun r => r.filename != fn) }) t

/-! ## `start_download` (src/main.py lines 418-481) -/

/-- The engine configuration `start_download` builds. -/
structure YdlOpts where
  format : String
  outtmpl : String
  noplaylist : Bool
deriving DecidableEq, Repr

/-- The outcome of `start_download`: either a blocking modal with no
    worker launched, or a worker started with the built options. -/
inductive StartOutcome where
  | aborted (title msg : String)
  | started (opts : YdlOpts)
deriving DecidableEq, Repr

/-- `start_download`, with the persisted table threaded through
    explicitly: the body contains no persistence call, so the table is
    returned as received on every path. The stripped URL is checked
    first, then the selection type; each video tier maps to its engine
    format expression. -/
def start_download (db : DBTable) (lineEditText : String) (selectionType : Option String)
    (playlistChecked : Bool) : StartOutcome × DBTable :=
  let url := pyStrip lineEditText
  if url = "" then (StartOutcome.aborted "URL Error" "Please enter a valid URL.", db)
  else if selectionType = some "unknown" then
    (StartOutcome.aborted "Selection Error" "Please select a valid format.", db)
  else
    match selectionType with
    | some "audio" =>
        (StartOutcome.started
          { format := "bestaudio/best", outtmpl := "%(title)s.%(ext)s",
            noplaylist := !playlistChecked }, db)
    | some "video720p" =>
        (StartOutcome.started
          { format := "bestvideo[height<=720]+bestaudio", outtmpl := "%(title)s.%(ext)s",
            noplaylist := !playlistChecked }, db)
    | some "video1080p" =>
        (StartOutcome.started
          { format := "bestvideo[height=1080]+bestaudio", outtmpl := "%(title)s.%(ext)s",
            noplaylist := !playlistChecked }, db)
    | some "video1440p" =>
        (StartOutcome.started
          { format := "bestvideo[height=1440]+bestaudio", outtmpl := "%(title)s.%(ext)s",
            noplaylist := !playlistChecked }, db)
    | some "video2K" =>
        (StartOutcome.started
          { format := "bestvideo[height=1440]+bestaudio", outtmpl := "%(title)s.%(ext)s",
            noplaylist := !playlistChecked }, db)
    | some "video4K" =>
        (StartOutcome.started
          { format := "bestvideo[height=2160]+bestaudio", outtmpl := "%(title)s.%(ext)s",
            noplaylist := !playlistChecked }, db)
    | _ => (StartOutcome.aborted "Selection Error" "Invalid selection type.", db)

/-! ## Concrete sample data used by counterexamples and witnesses -/

/-- A snapshot with 50 bytes downloaded and no total (both total keys
    absent). -/
def snNoTotal : Snapshot :=
  { emptySnapshot with status := some "downloading", downloaded_bytes := some 50 }

/-- A snapshot with 50 bytes downloaded and a present total of 0. -/
def snZeroTotal : Snapshot :=
  { emptySnapshot with status := some "downloading", downloaded_bytes := some 50,
                       total_bytes := some 0 }

/-- A snapshot carrying only the status key. -/
def snStatusOnly : Snapshot := { emptySnapshot with status := some "downloading" }

/-- A finished snapshot. -/
def snFin : Snapshot :=
  { emptySnapshot with status := some "finished", downloaded_bytes := some 100,
                       total_bytes := some 100 }

/-- A window state holding `snNoTotal`. -/
def stNoTotal : UIState := { st0 with download_data := snNoTotal }

/-- A table row left over from the downloading phase. -/
def rowT : Row :=
  { filename := "t", file_size := "1.00 MB", status := "100.00%",
    time_left := "0:00:00", transfer_rate := "0.50 MB/s" }

/-- A window state holding `snFin` with one cached row. -/
def stFin : UIState :=
  { st0 with download_data := snFin, tableRows := [rowT], current_row_position := some 0 }

/-- A filesystem on which exactly `t.mp4` exists, 5 MiB large. -/
def fsSample : String → Option Nat := fun f => if f = "t.mp4" then some 5242880 else none

/-! ## Helper lemmas -/

/-- A list filtered by a predicate satisfies that predicate
    everywhere. -/
theorem filter_all_self (p : DBRow → Bool) (l : List DBRow) : (l.filter p).all p = true := by
  induction l with
  | nil => rfl
  | cons a l ih => cases hpa : p a <;> simp [List.filter_cons, hpa, ih]

/-- `normalize_filename` does not move a string containing no dot. -/
theorem normalize_fixed_of_no_dot (s : String)
    (h : s.data.all (fun c => c != '.') = true) : normalize_filename s = s := by
  have hmem : ∀ c ∈ s.data, (c != '.') = true := List.all_eq_true.mp h
  have h2 : s.data.reverse.dropWhile (fun c => c != '.') = [] :=
    List.dropWhile_eq_nil_iff.mpr fun c hc => hmem c (List.mem_reverse.mp hc)
  have h1 : (s.data.reverse.takeWhile (fun c => c != '/')).dropWhile (fun c => c != '.') = [] :=
    List.dropWhile_eq_nil_iff.mpr fun c hc =>
      hmem c (List.mem_reverse.mp (List.takeWhile_subset _ hc))
  have hsp : pySplitext s.data = (s.data, []) := by
    unfold pySplitext
    rw [h1]
  have hrs : rsplitDotFirst s.data = s.data := by
    unfold rsplitDotFirst
    rw [h2]
  unfold normalize_filename
  rw [hsp, hrs]

/-- The label rank of the height classification, written directly as a
    function of the height. -/
theorem labelRank_heightToLabel (h : Nat) :
    labelRank (heightToLabel h) =
      if h ≥ 2160 then 5 else if h ≥ 1440 then 4 else if h ≥ 1080 then 3
      else if h ≥ 720 then 2 else if h ≥ 480 then 1 else 0 := by
  unfold heightToLabel
  split_ifs <;> rfl

/-- When the held snapshot is finished, one periodic tick changes
    neither the snapshot, nor the table, nor the cached row index. -/
theorem update_progress_frozen (st : UIState)
    (h : st.download_data.status = some "finished") :
    (update_progress st).download_data = st.download_data ∧
    (update_progress st).tableRows = st.tableRows ∧
    (update_progress st).current_row_position = st.current_row_position := by
  have hne : st.download_data.isEmpty = false := by
    unfold Snapshot.isEmpty
    rw [h]
    rfl
  unfold update_progress
  rw [hne]
  simp [h]

/-- Iterating the periodic tick on a finished snapshot never touches the
    table or the cached row index. -/
theorem ticks_frozen (n : Nat) (st : UIState)
    (h : st.download_data.status = some "finished") :
    (ticks n st).tableRows = st.tableRows ∧
    (ticks n st).current_row_position = st.current_row_position := by
  induction n generalizing st with
  | zero => exact ⟨rfl, rfl⟩
  | succ n ih =>
      obtain ⟨hd, ht, hc⟩ := update_progress_frozen st h
      have h' : (update_progress st).download_data.status = some "finished" := by
        rw [hd]; exact h
      obtain ⟨iht, ihc⟩ := ih (update_progress st) h'
      exact ⟨by unfold ticks; rw [iht, ht], by unfold ticks; rw [ihc, hc]⟩

/-! ## Claim theorems -/

/-- C1: the combo box sorts video entries by lexical comparison of the
    `x.split(":")[1]` key, not by resolution rank: on a listing with a
    720p and a 4K entry, the 720p entry is presented first even though
    its rank (2) is below the rank of 4K (5). -/
theorem combo_sort_is_lexical_not_rank :
    sortedVideos (parse_formats "1 mp4 1280x720\n2 mp4 3840x2160").video =
      ["1: 720p", "2: 4K"] ∧
    labelRank (pyStrip (comboKey "1: 720p")) < labelRank (pyStrip (comboKey "2: 4K")) := by
  constructor <;> decide

/-- C2 counterexample: `normalize_filename` is not idempotent — on the
    filename `"a.b.c.d"` one application yields `"a.b"` and a second
    application yields `"a"`. -/
theorem normalize_not_idempotent :
    normalize_filename (normalize_filename "a.b.c.d") ≠ normalize_filename "a.b.c.d" := by
  decide

/-- C2 (amended): `normalize_filename` is idempotent on every filename
    whose normalized form contains no remaining dot — in particular on
    every engine-produced name `title.fCODE.ext` whose title is
    dot-free. -/
theorem normalize_idempotent_when_no_dot_left (f : String)
    (h : ((normalize_filename f).data.all (fun c => c != '.')) = true) :
    normalize_filename (normalize_filename f) = normalize_filename f :=
  normalize_fixed_of_no_dot _ h

/-- C2 witness: the amended idempotence at the concrete engine-style
    filename `"video.f137.mp4"`. -/
theorem normalize_idempotent_witness :
    ((normalize_filename "video.f137.mp4").data.all (fun c => c != '.')) = true ∧
    normalize_filename (normalize_filename "video.f137.mp4") =
      normalize_filename "video.f137.mp4" :=
  ⟨by decide, normalize_idempotent_when_no_dot_left "video.f137.mp4" (by decide)⟩

unseal Rat.mul Rat.inv Rat.add Rat.sub in
/-- C3 counterexample: on a snapshot whose total keys are absent and
    with 50 bytes downloaded, the periodic projection computes percent
    5000 (denominator defaulted to 1), not 0; the progress bar clamps to
    100. -/
theorem percent_not_zero_when_total_absent :
    computePercent snNoTotal = 5000 ∧ (update_progress stNoTotal).progressBar = 100 := by
  constructor <;> decide

/-- C3 (amended): a present total of 0 yields percent 0 (and whenever
    the effective denominator is 0 no division is performed); but an
    absent total defaults the denominator to 1, so the computed percent
    is downloaded-bytes times 100 rather than 0. -/
theorem percent_total_zero_or_absent (d : Snapshot) :
    (d.total_bytes = some 0 → computePercent d = 0) ∧
    (effectiveTotal d = 0 → computePercent d = 0) ∧
    (d.total_bytes = none → d.total_bytes_estimate = none →
      computePercent d = ((d.downloaded_bytes.getD 0 : Nat) : ℚ) * 100) := by
  refine ⟨?_, ?_, ?_⟩
  · intro h
    unfold computePercent effectiveTotal
    rw [h]
    simp
  · intro h
    unfold computePercent
    rw [h]
    simp
  · intro h1 h2
    unfold computePercent effectiveTotal
    rw [h1, h2]
    norm_num

/-- C3 witness: the amended behaviour at the concrete snapshots with a
    zero total and with an absent total. -/
theorem percent_total_witness :
    snZeroTotal.total_bytes = some 0 ∧ computePercent snZeroTotal = 0 ∧
    computePercent snNoTotal = ((snNoTotal.downloaded_bytes.getD 0 : Nat) : ℚ) * 100 :=
  ⟨rfl, (percent_total_zero_or_absent snZeroTotal).1 rfl,
    (percent_total_zero_or_absent snNoTotal).2.2 rfl rfl⟩

/-- C4 counterexample: a snapshot without a status key makes
    `progress_hook` raise (the code subscripts `d["status"]` directly),
    rather than defaulting. -/
theorem progress_hook_raises_without_status :
    isOkE (progress_hook st0 emptySnapshot) = false := by
  decide

/-- C4 (amended): whenever the status key is present, `progress_hook`
    returns normally, and all the other fields of a downloading snapshot
    default to zero when absent. -/
theorem progress_hook_ok_when_status_present (st : UIState) (d : Snapshot) (s : String)
    (h : d.status = some s) :
    (∃ st', progress_hook st d = Except.ok st') ∧
    (d.status = some "downloading" → d.downloaded_bytes = none → d.total_bytes = none →
      d.total_bytes_estimate = none → d.speed = none → d.eta = none →
      ∃ st', progress_hook st d = Except.ok st' ∧
        st'.downloadedBytesAttr = some 0 ∧ st'.fileSizeAttr = some 0 ∧
        st'.transferRateAttr = some 0 ∧ st'.etaAttr = some 0 ∧
        st'.statusAttr = some "Downloading") := by
  constructor
  · unfold progress_hook
    simp only [h]
    split_ifs <;> exact ⟨_, rfl⟩
  · intro hs hdb htb hte hsp het
    unfold progress_hook
    simp only [hs, hdb, htb, hte, hsp, het]
    exact ⟨_, rfl, by simp, by simp, by simp, by simp, by simp⟩

/-- C4 witness: the amended claim at a snapshot carrying only
    `status = "downloading"`. -/
theorem progress_hook_ok_witness :
    snStatusOnly.status = some "downloading" ∧
    ∃ st', progress_hook st0 snStatusOnly = Except.ok st' :=
  ⟨rfl, (progress_hook_ok_when_status_present st0 snStatusOnly "downloading" rfl).1⟩

unseal Rat.mul Rat.inv Rat.add Rat.sub in
/-- C5 counterexample: the completion record's transfer-rate string is
    `"0.00 MB/S"` (capital S), not the claimed `"0.00 MB/s"`. -/
theorem completion_record_capital_s :
    (on_download_finished fsSample stFin (some "t.mp4")).2 =
      [{ filename := "t.mp4", file_size := "5.00 MB", status := "Completed",
         time_left := "N/A", transfer_rate := "0.00 MB/S" }] ∧
    "0.00 MB/S" ≠ "0.00 MB/s" := by
  constructor <;> decide

/-- C5 (amended): when the transfer completes and the artifact exists on
    disk, exactly one record is written, with status "Completed",
    time-left "N/A", transfer-rate "0.00 MB/S", and the size formatted
    with two decimals, in GB when it is at least 1 GiB and in MB
    otherwise. -/
theorem completion_writes_one_record (fs : String → Option Nat) (st : UIState)
    (merged : Option String) (bytes : Nat)
    (h : fs (resolvedName st merged) = some bytes) :
    (on_download_finished fs st merged).2 =
      [{ filename := resolvedName st merged,
         file_size :=
           if 1024 * 1024 * 1024 ≤ bytes then
             fmt2 ((bytes : ℚ) / (1024 * 1024 * 1024)) ++ " GB"
           else fmt2 ((bytes : ℚ) / (1024 * 1024)) ++ " MB",
         status := "Completed", time_left := "N/A", transfer_rate := "0.00 MB/S" }] := by
  unfold on_download_finished
  simp only [h]
  unfold format_completed_size
  have hiff : (1 ≤ (bytes : ℚ) / (1024 * 1024 * 1024)) ↔ (1024 * 1024 * 1024 ≤ bytes) := by
    rw [le_div_iff₀ (by norm_num), one_mul]
    exact_mod_cast Iff.rfl
  simp only [hiff]

/-- C5 witness: the amended claim at the 5 MiB artifact `t.mp4`. -/
theorem completion_record_witness :
    fsSample (resolvedName stFin (some "t.mp4")) = some 5242880 ∧
    (on_download_finished fsSample stFin (some "t.mp4")).2 =
      [{ filename := resolvedName stFin (some "t.mp4"),
         file_size :=
           if 1024 * 1024 * 1024 ≤ 5242880 then
             fmt2 ((5242880 : ℚ) / (1024 * 1024 * 1024)) ++ " GB"
           else fmt2 ((5242880 : ℚ) / (1024 * 1024)) ++ " MB",
         status := "Completed", time_left := "N/A", transfer_rate := "0.00 MB/S" }] :=
  ⟨rfl, completion_writes_one_record fsSample stFin (some "t.mp4") 5242880 rfl⟩

/-- C6: parsing the sample listing yields the audio entry
    "140: Audio Only" and the video entries sorted to
    ["999: 4K", "137: 1080p"], which is also the combo box order after
    the placeholder and the audio item. -/
theorem parse_sample_catalog :
    (parse_formats "137 mp4 1920x1080  some label\n140 m4a audio only\n999 mp4 3840x2160 4k").audio
      = some "140: Audio Only" ∧
    sortedVideos
      (parse_formats "137 mp4 1920x1080  some label\n140 m4a audio only\n999 mp4 3840x2160 4k").video
      = ["999: 4K", "137: 1080p"] ∧
    populate_combo_box
      (parse_formats "137 mp4 1920x1080  some label\n140 m4a audio only\n999 mp4 3840x2160 4k")
      = ["Select Format", "140: Audio Only", "999: 4K", "137: 1080p"] := by
  refine ⟨?_, ?_, ?_⟩ <;> decide

/-- C7: once the held snapshot's status is finished, no number of
    periodic ticks changes the table or the cached row index, and the
    completion handler then overwrites exactly the cached row with the
    final on-disk size and "Completed". -/
theorem finished_freezes_table (st : UIState) (n : Nat)
    (h : st.download_data.status = some "finished") :
    ((ticks n st).tableRows = st.tableRows ∧
      (ticks n st).current_row_position = st.current_row_position) ∧
    (∀ (fs : String → Option Nat) (merged : Option String) (bytes : Nat) (i : Nat),
      st.current_row_position = some i →
      fs (resolvedName st merged) = some bytes →
      (on_download_finished fs st merged).1.tableRows =
        st.tableRows.set i
          { filename := resolvedName st merged,
            file_size := format_completed_size bytes, status := "Completed",
            time_left := "N/A", transfer_rate := "0.00 MB/S" }) := by
  refine ⟨ticks_frozen n st h, ?_⟩
  intro fs merged bytes i hcur hfs
  unfold on_download_finished
  simp only [hfs, hcur, clear_input]

/-- C7 witness: three ticks on the concrete finished state leave its
    row untouched. -/
theorem finished_freezes_table_witness :
    (ticks 3 stFin).tableRows = stFin.tableRows ∧
    (ticks 3 stFin).current_row_position = stFin.current_row_position :=
  (finished_freezes_table stFin 3 rfl).1

/-- C8: inserting a record into an empty table and deleting by its
    filename leaves the fetch empty; inserting two records with the same
    filename and deleting that filename removes both; and in any table a
    delete by filename removes every matching row. -/
theorem db_insert_delete_by_filename
    (fn s1 st1 tl1 tr1 s2 st2 tl2 tr2 : String) (t : DBTable) :
    fetch_entries_from_database
        (delete_files_from_database [fn]
          (add_file_to_database_table fn s1 st1 tl1 tr1 emptyTable)) = [] ∧
    fetch_entries_from_database
        (delete_files_from_database [fn]
          (add_file_to_database_table fn s2 st2 tl2 tr2
            (add_file_to_database_table fn s1 st1 tl1 tr1 emptyTable))) = [] ∧
    (fetch_entries_from_database (delete_files_from_database [fn] t)).all
        (fun r => r.filename != fn) = true := by
  refine ⟨?_, ?_, ?_⟩
  · simp [fetch_entries_from_database, delete_files_from_database,
      add_file_to_database_table, emptyTable]
  · simp [fetch_entries_from_database, delete_files_from_database,
      add_file_to_database_table, emptyTable]
  · simp only [fetch_entries_from_database, delete_files_from_database, List.foldl]
    exact filter_all_self (fun r => r.filename != fn) t.rows

/-- C9: `start_download` on a URL that strips to empty aborts with the
    URL-error modal, starts no worker, and returns the persisted table
    unchanged. -/
theorem start_download_empty_url_aborts (db : DBTable) (text : String)
    (sel : Option String) (chk : Bool) (h : pyStrip text = "") :
    start_download db text sel chk =
      (StartOutcome.aborted "URL Error" "Please enter a valid URL.", db) := by
  unfold start_download
  rw [h]
  rfl

/-- C9 witness: the abort at a whitespace-only URL. -/
theorem start_download_empty_url_witness :
    pyStrip "   " = "" ∧
    start_download emptyTable "   " none false =
      (StartOutcome.aborted "URL Error" "Please enter a valid URL.", emptyTable) :=
  ⟨by decide, start_download_empty_url_aborts emptyTable "   " none false (by decide)⟩

/-- C10: the height classification is monotonic — a greater height never
    yields a label of lower resolution rank. -/
theorem classification_monotone_in_height (h1 h2 : Nat) (hle : h1 ≤ h2) :
    labelRank (heightToLabel h1) ≤ labelRank (heightToLabel h2) := by
  rw [labelRank_heightToLabel, labelRank_heightToLabel]
  split_ifs <;> omega

/-- C10 witness: monotonicity at the concrete pair 1080 ≤ 2160. -/
theorem classification_monotone_witness :
    labelRank (heightToLabel 1080) ≤ labelRank (heightToLabel 2160) :=
  classification_monotone_in_height 1080 2160 (by decide)

end Ytdlp
